import Mathlib

/-!
Shallow embedding of `fan.py`, a closed-loop fan controller that reads a CPU
temperature from an OpenHardwareMonitor JSON feed and drives a Dell iDRAC fan
policy over ipmitool.  Python floats are modelled as `ℚ`, the mutable global
`idrac_fan_mode_is_manual` (None / False / True) as an explicit
`RemoteFanState` (Unknown / Auto / Manual) threaded through the functions, and
each external ipmitool invocation as an `InvocationResult` oracle value
supplied to the function that would issue it.  Issued commands are recorded in
an output list so that command-issuance claims can be stated.
-/

namespace Fan

/-- Configuration constants from the top of `fan.py`. -/
def IDRAC_IP : String := "10.10.10.194"

def IDRAC_USER : String := "root"

def IDRAC_PASSWORD : String := "calvin"

def IPMITOOL_PATH : String := "C:\\DFan\\ipmitool.exe"

def TEMP_LOW_THRESHOLD_NEW : ℚ := 60

def TEMP_AUTO_THRESHOLD_NEW : ℚ := 70

def FAN_SPEED_LOW_HEX_NEW : String := "0x0A"

def FAN_SPEED_MEDIUM_HEX_NEW : String := "0x32"

def DELL_DISABLE_AUTO_FAN_CMD_ARGS : List String := ["raw", "0x30", "0x30", "0x01", "0x00"]

def DELL_ENABLE_AUTO_FAN_CMD_ARGS : List String := ["raw", "0x30", "0x30", "0x01", "0x01"]

def DELL_SET_FAN_SPEED_PREFIX_CMD_ARGS : List String := ["raw", "0x30", "0x30", "0x02", "0xff"]

/-! ### Python string and number primitives

Modelled over `List Char` so that every operation is structural and reduces in
the kernel.  `pyStrip` is Python `str.strip()`, `natOfDigits` the value of a
digit string, `pyIntHex?` is `int(s, 16)` and `pyFloat?` is `float(s)` on the
decimal forms that occur in sensor values (sign, integer/fraction digits,
optional exponent; the exotic `inf`/`nan`/underscore forms are out of scope of
the sensor format `"<number> <unit>"`). -/

def pyStrip (l : List Char) : List Char :=
  ((l.dropWhile Char.isWhitespace).reverse.dropWhile Char.isWhitespace).reverse

def natOfDigits (l : List Char) : ℕ :=
  l.foldl (fun n c => 10 * n + (c.toNat - 48)) 0

def isHexDigitChar (c : Char) : Bool :=
  c.isDigit || (Char.ofNat 97 ≤ c && c ≤ Char.ofNat 102) || (Char.ofNat 65 ≤ c && c ≤ Char.ofNat 70)

def hexDigitVal (c : Char) : ℕ :=
  if c.isDigit then c.toNat - 48
  else if Char.ofNat 97 ≤ c then c.toNat - 87
  else c.toNat - 55

def natOfHexDigits (l : List Char) : ℕ :=
  l.foldl (fun n c => 16 * n + hexDigitVal c) 0

/-- Python `int(s, 16)`: strip whitespace, optional sign, optional `0x`/`0X`
prefix, then at least one hex digit and nothing else. -/
def pyIntHex? (s : String) : Option ℤ :=
  let l := pyStrip s.data
  let signAndRest : ℤ × List Char :=
    match l with
    | '+' :: r => (1, r)
    | '-' :: r => (-1, r)
    | _ => (1, l)
  let body : List Char :=
    match signAndRest.2 with
    | '0' :: 'x' :: r => r
    | '0' :: 'X' :: r => r
    | r => r
  if body ≠ [] ∧ body.all isHexDigitChar then
    some (signAndRest.1 * (natOfHexDigits body : ℤ))
  else none

/-- Python `float(tok)` for a finite decimal literal:
`[sign] (digits [. digits] | . digits) [(e|E) [sign] digits]`. -/
def pyFloat? (s : String) : Option ℚ :=
  let l := pyStrip s.data
  let signAndRest : ℤ × List Char :=
    match l with
    | '+' :: r => (1, r)
    | '-' :: r => (-1, r)
    | _ => (1, l)
  let ip := signAndRest.2.takeWhile Char.isDigit
  let rest1 := signAndRest.2.dropWhile Char.isDigit
  let fracAndRest : List Char × List Char :=
    match rest1 with
    | '.' :: r => (r.takeWhile Char.isDigit, r.dropWhile Char.isDigit)
    | r => ([], r)
  let fp := fracAndRest.1
  let hadDot : Bool := match rest1 with | '.' :: _ => true | _ => false
  let mantOk : Bool := !ip.isEmpty || (hadDot && !fp.isEmpty)
  let mantNum : ℤ := signAndRest.1 * (natOfDigits (ip ++ fp) : ℤ)
  let mantDen : ℕ := 10 ^ fp.length
  match fracAndRest.2 with
  | [] => if mantOk then some (mkRat mantNum mantDen) else none
  | c :: r =>
    if c = 'e' ∨ c = 'E' then
      let expSignAndRest : Bool × List Char :=
        match r with
        | '+' :: rr => (false, rr)
        | '-' :: rr => (true, rr)
        | rr => (false, rr)
      let ed := expSignAndRest.2.takeWhile Char.isDigit
      let r2 := expSignAndRest.2.dropWhile Char.isDigit
      if mantOk && !ed.isEmpty && r2.isEmpty then
        let e := natOfDigits ed
        some (if expSignAndRest.1 then mkRat mantNum (mantDen * 10 ^ e)
              else mkRat (mantNum * (10 : ℤ) ^ e) mantDen)
      else none
    else none

/-- Python `s.split()[0]`: first maximal run of non-whitespace characters
(`[]` models the `IndexError` on an all-whitespace value). -/
def firstToken (s : String) : List Char :=
  (s.data.dropWhile Char.isWhitespace).takeWhile (fun c => !c.isWhitespace)

/-! ### The ipmitool invocation model (`run_ipmi_command`)

A real invocation either exits with a code and a stderr text, times out, or
fails to find the executable.  `classify_outcome` mirrors the branch structure
of `run_ipmi_command` in `fan.py`: zero exit returns normally (Success);
`CalledProcessError` with empty stripped stderr on a no-output-expected `raw`
command is the "可能已执行" branch returning True (AmbiguousSuccess); every
other path falls through to the failure return. -/

inductive InvocationResult : Type where
  | exited (code : ℕ) (stderr : String)
  | timeout
  | notFound
deriving DecidableEq

inductive Outcome : Type where
  | Success
  | AmbiguousSuccess
  | Failure
deriving DecidableEq

/-- `e.stderr.strip() if e.stderr else ""` from `fan.py`. -/
def strippedStderr (s : String) : List Char :=
  if s.data = [] then [] else pyStrip s.data

def base_cmd : List String :=
  [IPMITOOL_PATH, "-I", "lanplus", "-H", IDRAC_IP, "-U", IDRAC_USER, "-P", IDRAC_PASSWORD]

def full_cmd (command_args : List String) : List String :=
  base_cmd ++ command_args

def classify_outcome (expect_output : Bool) (command_args : List String)
    (r : InvocationResult) : Outcome :=
  match r with
  | .exited code stderr =>
    if code = 0 then Outcome.Success
    else if expect_output = false ∧ strippedStderr stderr = [] ∧
        (full_cmd command_args).contains "raw" = true then
      Outcome.AmbiguousSuccess
    else Outcome.Failure
  | .timeout => Outcome.Failure
  | .notFound => Outcome.Failure

/-- `run_ipmi_command(args, expect_output=False)` as used by all three control
commands: `True` exactly on the zero-exit and ambiguous-success branches. -/
def run_ipmi_command (command_args : List String) (r : InvocationResult) : Bool :=
  match classify_outcome false command_args r with
  | Outcome.Failure => false
  | _ => true

/-! ### Fan mode state and the three control functions

`RemoteFanState.Unknown / Auto / Manual` model the Python global
`idrac_fan_mode_is_manual = None / False / True`.  Each function returns its
Python boolean result, the state after the call, and the list of remote
commands it issued (in order). -/

inductive RemoteFanState : Type where
  | Unknown
  | Auto
  | Manual
deriving DecidableEq

inductive Cmd : Type where
  | EnableAuto
  | EnableManual
  | SetSpeed (speed_hex : String)
deriving DecidableEq

/-- `set_idrac_fan_mode_auto` from `fan.py` (the prior tracked state is
overwritten unconditionally, hence unused). -/
def set_idrac_fan_mode_auto (_st : RemoteFanState) (r : InvocationResult) :
    Bool × RemoteFanState × List Cmd :=
  if run_ipmi_command DELL_ENABLE_AUTO_FAN_CMD_ARGS r then
    (true, RemoteFanState.Auto, [Cmd.EnableAuto])
  else
    (false, RemoteFanState.Unknown, [Cmd.EnableAuto])

/-- `ensure_idrac_fan_mode_manual` from `fan.py`: no-op when the tracked state
is already `Manual`. -/
def ensure_idrac_fan_mode_manual (st : RemoteFanState) (r : InvocationResult) :
    Bool × RemoteFanState × List Cmd :=
  if st = RemoteFanState.Manual then (true, st, [])
  else if run_ipmi_command DELL_DISABLE_AUTO_FAN_CMD_ARGS r then
    (true, RemoteFanState.Manual, [Cmd.EnableManual])
  else
    (false, RemoteFanState.Unknown, [Cmd.EnableManual])

/-- `set_idrac_fan_speed_percentage` from `fan.py`: validate the hex argument
(`int(speed_hex, 16)` raising `ValueError` models as `pyIntHex? = none`),
ensure manual mode, then issue the speed command.  `rMode` is the oracle for
the mode command `ensure_idrac_fan_mode_manual` may issue, `rSpeed` for the
speed command. -/
def set_idrac_fan_speed_percentage (speed_hex : String) (st : RemoteFanState)
    (rMode rSpeed : InvocationResult) : Bool × RemoteFanState × List Cmd :=
  match pyIntHex? speed_hex with
  | none => (false, st, [])
  | some _ =>
    let ensured := ensure_idrac_fan_mode_manual st rMode
    if ensured.1 then
      if run_ipmi_command (DELL_SET_FAN_SPEED_PREFIX_CMD_ARGS ++ [speed_hex]) rSpeed then
        (true, ensured.2.1, ensured.2.2 ++ [Cmd.SetSpeed speed_hex])
      else
        (false, ensured.2.1, ensured.2.2 ++ [Cmd.SetSpeed speed_hex])
    else
      (false, ensured.2.1, ensured.2.2)

/-! ### The control loop decision and tick, and the finalization pass -/

inductive FanAction : Type where
  | SetAutoMode
  | SetManualSpeed (speed_hex : String)
deriving DecidableEq

/-- The three-band decision of `main_control_loop` (lines 217-228 of
`fan.py`): `t >= 70` auto, `t < 60` low speed, otherwise medium speed. -/
def loopDecision (t : ℚ) : FanAction :=
  if t ≥ TEMP_AUTO_THRESHOLD_NEW then FanAction.SetAutoMode
  else if t < TEMP_LOW_THRESHOLD_NEW then FanAction.SetManualSpeed FAN_SPEED_LOW_HEX_NEW
  else FanAction.SetManualSpeed FAN_SPEED_MEDIUM_HEX_NEW

/-- The oracle for one loop tick: the invocation results the tick would see
for a mode command and for a speed command, were they issued. -/
structure TickEnv : Type where
  rMode : InvocationResult
  rSpeed : InvocationResult
deriving DecidableEq

/-- One iteration of the `while True` body of `main_control_loop`: a reading
of `none` models a failed OHM fetch (the tick does nothing), otherwise the
three-band decision drives the control functions.  Returns the tracked state
after the tick and the commands issued during it. -/
def tick (reading : Option ℚ) (st : RemoteFanState) (env : TickEnv) :
    RemoteFanState × List Cmd :=
  match reading with
  | none => (st, [])
  | some t =>
    if t ≥ TEMP_AUTO_THRESHOLD_NEW then
      let res := set_idrac_fan_mode_auto st env.rMode
      (res.2.1, res.2.2)
    else
      let target_speed_hex :=
        if t < TEMP_LOW_THRESHOLD_NEW then FAN_SPEED_LOW_HEX_NEW else FAN_SPEED_MEDIUM_HEX_NEW
      let res := set_idrac_fan_speed_percentage target_speed_hex st env.rMode env.rSpeed
      (res.2.1, res.2.2)

/-- Folding `tick` over a list of (reading, oracle) pairs: the state after the
last tick and the per-tick command lists. -/
def runTicks (st : RemoteFanState) :
    List (Option ℚ × TickEnv) → RemoteFanState × List (List Cmd)
  | [] => (st, [])
  | (reading, env) :: rest =>
    let stepped := tick reading st env
    let tail := runTicks stepped.1 rest
    (tail.1, stepped.2 :: tail.2)

/-- The `finally:` block of `fan.py`: take one fresh reading; `>= 70` or no
reading forces auto mode, a cooler reading deliberately issues nothing. -/
def finalization (reading : Option ℚ) (st : RemoteFanState) (r : InvocationResult) :
    RemoteFanState × List Cmd :=
  match reading with
  | some t =>
    if t ≥ TEMP_AUTO_THRESHOLD_NEW then
      let res := set_idrac_fan_mode_auto st r
      (res.2.1, res.2.2)
    else (st, [])
  | none =>
    let res := set_idrac_fan_mode_auto st r
    (res.2.1, res.2.2)

/-! ### The telemetry extractor (`get_cpu_package_temp_from_ohm`)

The OHM JSON document is a tree of nodes with a `Text`, an `ImageURL`, an
optional `Value` string and a `Children` list (a missing `Children` key models
as `[]`, a missing `Value` key as `none`).  The transport part (HTTP fetch and
JSON decode, which yields `None` on failure) is outside the embedded snapshot:
the extractor below is the pure part applied to a decoded document. -/

inductive OhmNode : Type where
  | node (text imageURL : String) (value : Option String) (children : List OhmNode)

def OhmNode.text : OhmNode → String
  | .node t _ _ _ => t

def OhmNode.imageURL : OhmNode → String
  | .node _ u _ _ => u

def OhmNode.value : OhmNode → Option String
  | .node _ _ v _ => v

def OhmNode.children : OhmNode → List OhmNode
  | .node _ _ _ c => c

def lowerChars (l : List Char) : List Char :=
  l.map Char.toLower

def startsWithChars : List Char → List Char → Bool
  | [], _ => true
  | _ :: _, [] => false
  | a :: as, b :: bs => a = b && startsWithChars as bs

def containsSub (needle : List Char) : List Char → Bool
  | [] => startsWithChars needle []
  | c :: rest => startsWithChars needle (c :: rest) || containsSub needle rest

def endsWithChars (needle hay : List Char) : Bool :=
  startsWithChars needle.reverse hay.reverse

/-- The CPU-class heuristic of `fan.py`: lowercased label contains "cpu",
"intel" or "amd", or the `ImageURL` ends with "cpu.png". -/
def is_cpu (hardware_item : OhmNode) : Bool :=
  let lt := lowerChars hardware_item.text.data
  containsSub "cpu".data lt || containsSub "intel".data lt || containsSub "amd".data lt ||
    endsWithChars "cpu.png".data hardware_item.imageURL.data

/-- `float(value.split()[0])` with the three caught exceptions collapsing to
`none` (`IndexError` on an all-whitespace value, `ValueError` on a non-numeric
token). -/
def parseTempValue (v : String) : Option ℚ :=
  let tok := firstToken v
  if tok = [] then none else pyFloat? (String.mk tok)

/-- The inner sensor scan of `fan.py`: walk the `Temperatures` children, skip
sensors that are not named "CPU Package" or lack a `Value` or whose value
fails to parse, and `break` (stop the scan) at the first parsed value. -/
def firstPackageTemp : List OhmNode → Option ℚ
  | [] => none
  | s :: rest =>
    if s.text = "CPU Package" then
      match s.value with
      | some v =>
        match parseTempValue v with
        | some q => some q
        | none => firstPackageTemp rest
      | none => firstPackageTemp rest
    else firstPackageTemp rest

/-- The per-hardware-item collection of `fan.py`: nothing for a non-CPU node;
otherwise at most one parsed value per `Temperatures` child group. -/
def packageTempsOfHardware (hardware_item : OhmNode) : List ℚ :=
  if is_cpu hardware_item then
    hardware_item.children.filterMap (fun component =>
      if component.text = "Temperatures" then firstPackageTemp component.children else none)
  else []

def pyMax (h : ℚ) (t : List ℚ) : ℚ :=
  t.foldl max h

/-- The pure part of `get_cpu_package_temp_from_ohm`: top-level shape checks
(`Children` missing/empty at either of the first two levels is an error),
then the maximum of the collected per-CPU package temperatures, `none` when
nothing was collected. -/
def get_cpu_package_temp_from_ohm (data : OhmNode) : Option ℚ :=
  match data.children with
  | [] => none
  | computer_node :: _ =>
    match computer_node.children with
    | [] => none
    | hw :: hwrest =>
      match (hw :: hwrest).flatMap packageTempsOfHardware with
      | [] => none
      | q :: qs => some (pyMax q qs)

/-! ### Spec-side extractor for the refinement claim C8

`spec_cpu_package_max` follows the spec's words: the maximum numeric value of
EVERY leaf named "CPU Package" found in a `Temperatures` group of a CPU-class
hardware node, values that fail to parse being skipped, with the same
malformed-shape and no-value outcomes. -/

def specPackageLeafValuesOfGroup (sensors : List OhmNode) : List ℚ :=
  sensors.filterMap (fun s =>
    if s.text = "CPU Package" then
      match s.value with
      | some v => parseTempValue v
      | none => none
    else none)

def specPackageTempsOfHardware (hardware_item : OhmNode) : List ℚ :=
  if is_cpu hardware_item then
    hardware_item.children.flatMap (fun component =>
      if component.text = "Temperatures" then specPackageLeafValuesOfGroup component.children
      else [])
  else []

def spec_cpu_package_max (data : OhmNode) : Option ℚ :=
  match data.children with
  | [] => none
  | computer_node :: _ =>
    match computer_node.children with
    | [] => none
    | hw :: hwrest =>
      match (hw :: hwrest).flatMap specPackageTempsOfHardware with
      | [] => none
      | q :: qs => some (pyMax q qs)

/-! ### Concrete snapshots used by counterexamples and witnesses -/

/-- A CPU hardware node whose single `Temperatures` group holds two leaves
both named "CPU Package": `50.0 °C` first, `80.0 °C` second. -/
def cexHardware : OhmNode :=
  OhmNode.node "Intel Core i7" "" none
    [OhmNode.node "Temperatures" "" none
      [OhmNode.node "CPU Package" "" (some "50.0 °C") [],
       OhmNode.node "CPU Package" "" (some "80.0 °C") []]]

def cexData : OhmNode :=
  OhmNode.node "Sensor" "" none
    [OhmNode.node "MYPC" "" none [cexHardware]]

/-- A well-shaped snapshot: one CPU with one "CPU Package" leaf at `65.0 °C`
plus an unparseable sibling sensor, and one non-CPU hardware node. -/
def okData : OhmNode :=
  OhmNode.node "Sensor" "" none
    [OhmNode.node "MYPC" "" none
      [OhmNode.node "AMD Ryzen 7" "" none
        [OhmNode.node "Temperatures" "" none
          [OhmNode.node "CPU Core #1" "" (some "60.0 °C") [],
           OhmNode.node "CPU Package" "" (some "65.0 °C") []]],
       OhmNode.node "Generic Memory" "" none
        [OhmNode.node "Load" "" (some "40.0 %") []]]]

/-! ### Helper lemmas -/

theorem ensure_true_state_manual (st : RemoteFanState) (rM : InvocationResult)
    (h : (ensure_idrac_fan_mode_manual st rM).1 = true) :
    (ensure_idrac_fan_mode_manual st rM).2.1 = RemoteFanState.Manual := by
  by_cases hst : st = RemoteFanState.Manual
  · subst hst; rfl
  · unfold ensure_idrac_fan_mode_manual at h ⊢
    rw [if_neg hst] at h ⊢
    cases hrun : run_ipmi_command DELL_DISABLE_AUTO_FAN_CMD_ARGS rM
    · rw [hrun] at h
      exact absurd h (by decide)
    · rfl

theorem speed_from_manual_state (speed_hex : String) (n : ℤ)
    (h : pyIntHex? speed_hex = some n) (rM rS : InvocationResult) :
    (set_idrac_fan_speed_percentage speed_hex RemoteFanState.Manual rM rS).2
      = (RemoteFanState.Manual, [Cmd.SetSpeed speed_hex]) := by
  unfold set_idrac_fan_speed_percentage
  rw [h]
  have hens : ensure_idrac_fan_mode_manual RemoteFanState.Manual rM
      = (true, RemoteFanState.Manual, []) := rfl
  rw [hens]
  cases hrun : run_ipmi_command (DELL_SET_FAN_SPEED_PREFIX_CMD_ARGS ++ [speed_hex]) rS <;>
    simp [hrun]

theorem tick_manual_band (t : ℚ) (env : TickEnv) (ht : t < TEMP_AUTO_THRESHOLD_NEW) :
    ∃ speed_hex, tick (some t) RemoteFanState.Manual env
      = (RemoteFanState.Manual, [Cmd.SetSpeed speed_hex]) := by
  have hnot : ¬ t ≥ TEMP_AUTO_THRESHOLD_NEW := not_le.mpr ht
  by_cases hlow : t < TEMP_LOW_THRESHOLD_NEW
  · refine ⟨FAN_SPEED_LOW_HEX_NEW, ?_⟩
    have hv := speed_from_manual_state FAN_SPEED_LOW_HEX_NEW 10 (by decide) env.rMode env.rSpeed
    simp only [tick, if_neg hnot, if_pos hlow]
    rw [← hv]
  · refine ⟨FAN_SPEED_MEDIUM_HEX_NEW, ?_⟩
    have hv := speed_from_manual_state FAN_SPEED_MEDIUM_HEX_NEW 50 (by decide) env.rMode env.rSpeed
    simp only [tick, if_neg hnot, if_neg hlow]
    rw [← hv]

theorem noPackage_group (sensors : List OhmNode)
    (h : ∀ s ∈ sensors, ¬ s.text = "CPU Package") :
    specPackageLeafValuesOfGroup sensors = [] ∧ firstPackageTemp sensors = none := by
  induction sensors with
  | nil => exact ⟨rfl, rfl⟩
  | cons s rest ih =>
    have hs : ¬ s.text = "CPU Package" := h s (List.mem_cons_self s rest)
    obtain ⟨h1, h2⟩ := ih (fun x hx => h x (List.mem_cons_of_mem s hx))
    constructor
    · simp only [specPackageLeafValuesOfGroup, List.filterMap_cons, if_neg hs]
      exact h1
    · simp only [firstPackageTemp, if_neg hs]
      exact h2

theorem group_first_eq_spec (sensors : List OhmNode)
    (h : (sensors.filter (fun s => s.text = "CPU Package")).length ≤ 1) :
    specPackageLeafValuesOfGroup sensors = (firstPackageTemp sensors).toList := by
  induction sensors with
  | nil => rfl
  | cons s rest ih =>
    by_cases hs : s.text = "CPU Package"
    · have hrest : ∀ x ∈ rest, ¬ x.text = "CPU Package" := by
        intro x hx hxt
        have hfs : (s :: rest).filter (fun s => s.text = "CPU Package")
            = s :: rest.filter (fun s => s.text = "CPU Package") := by
          simp [List.filter_cons, hs]
        rw [hfs, List.length_cons] at h
        have h0 : (rest.filter (fun s => s.text = "CPU Package")).length = 0 := by omega
        have hx0 : rest.filter (fun s => s.text = "CPU Package") = [] :=
          List.length_eq_zero.mp h0
        have : x ∈ rest.filter (fun s => s.text = "CPU Package") :=
          List.mem_filter.mpr ⟨hx, by simp [hxt]⟩
        rw [hx0] at this
        exact absurd this (List.not_mem_nil x)
      obtain ⟨hspec, hfirst⟩ := noPackage_group rest hrest
      simp only [specPackageLeafValuesOfGroup] at hspec ⊢
      simp only [List.filterMap_cons, if_pos hs]
      cases hv : s.value with
      | none =>
        simp only [firstPackageTemp, if_pos hs, hv, hspec, hfirst, Option.toList]
      | some v =>
        cases hp : parseTempValue v with
        | none =>
          simp only [firstPackageTemp, if_pos hs, hv, hp, hspec, hfirst, Option.toList]
        | some q =>
          simp only [firstPackageTemp, if_pos hs, hv, hp, hspec, Option.toList]
    · have hfilter : (s :: rest).filter (fun s => s.text = "CPU Package")
          = rest.filter (fun s => s.text = "CPU Package") := by
        simp [List.filter_cons, hs]
      rw [hfilter] at h
      simp only [specPackageLeafValuesOfGroup, List.filterMap_cons, if_neg hs,
        firstPackageTemp]
      exact ih h

theorem flatMap_toList_eq_filterMap {α β : Type} (f : α → Option β) (g : α → List β)
    (l : List α) (h : ∀ x ∈ l, g x = (f x).toList) :
    l.flatMap g = l.filterMap f := by
  induction l with
  | nil => rfl
  | cons x rest ih =>
    rw [List.flatMap_cons, List.filterMap_cons, h x (List.mem_cons_self x rest)]
    cases hf : f x <;>
      simp [hf, ih (fun y hy => h y (List.mem_cons_of_mem x hy))]

theorem hardware_first_eq_spec (hardware_item : OhmNode)
    (h : ∀ comp ∈ hardware_item.children,
      (comp.children.filter (fun s => s.text = "CPU Package")).length ≤ 1) :
    specPackageTempsOfHardware hardware_item = packageTempsOfHardware hardware_item := by
  unfold specPackageTempsOfHardware packageTempsOfHardware
  by_cases hc : is_cpu hardware_item
  · rw [if_pos hc, if_pos hc]
    apply flatMap_toList_eq_filterMap
    intro comp hcomp
    by_cases ht : comp.text = "Temperatures"
    · rw [if_pos ht, if_pos ht]
      exact group_first_eq_spec comp.children (h comp hcomp)
    · rw [if_neg ht, if_neg ht]
      rfl
  · rw [if_neg hc, if_neg hc]

theorem flatMap_congr_mem {α β : Type} (g g' : α → List β) (l : List α)
    (h : ∀ x ∈ l, g x = g' x) :
    l.flatMap g = l.flatMap g' := by
  induction l with
  | nil => rfl
  | cons x rest ih =>
    rw [List.flatMap_cons, List.flatMap_cons, h x (List.mem_cons_self x rest),
      ih (fun y hy => h y (List.mem_cons_of_mem x hy))]

/-! ### Claim theorems -/

/-- C1: for every present temperature reading `t` the loop decision maps `t`
to exactly one action: `t >= 70` yields `SetAutoMode`, `60 <= t < 70` yields
`SetManualSpeed(MEDIUM)`, `t < 60` yields `SetManualSpeed(LOW)`, and the
boundary readings `t = 60` and `t = 70` resolve to the medium band and the
auto band respectively. -/
theorem C1_decision_bands (t : ℚ) :
    (t ≥ TEMP_AUTO_THRESHOLD_NEW → loopDecision t = FanAction.SetAutoMode) ∧
    (TEMP_LOW_THRESHOLD_NEW ≤ t → t < TEMP_AUTO_THRESHOLD_NEW →
      loopDecision t = FanAction.SetManualSpeed FAN_SPEED_MEDIUM_HEX_NEW) ∧
    (t < TEMP_LOW_THRESHOLD_NEW → loopDecision t = FanAction.SetManualSpeed FAN_SPEED_LOW_HEX_NEW) ∧
    loopDecision TEMP_LOW_THRESHOLD_NEW = FanAction.SetManualSpeed FAN_SPEED_MEDIUM_HEX_NEW ∧
    loopDecision TEMP_AUTO_THRESHOLD_NEW = FanAction.SetAutoMode := by
  refine ⟨fun h => ?_, fun h1 h2 => ?_, fun h => ?_, by decide, by decide⟩
  · unfold loopDecision
    rw [if_pos h]
  · unfold loopDecision
    rw [if_neg (not_le.mpr h2), if_neg (not_lt.mpr h1)]
  · have h70 : ¬ t ≥ TEMP_AUTO_THRESHOLD_NEW := by
      refine not_le.mpr (lt_trans h ?_)
      show TEMP_LOW_THRESHOLD_NEW < TEMP_AUTO_THRESHOLD_NEW
      decide
    unfold loopDecision
    rw [if_neg h70, if_pos h]

/-- Witness for C1 at the concrete reading 65. -/
theorem C1_decision_bands_witness :
    loopDecision 65 = FanAction.SetManualSpeed FAN_SPEED_MEDIUM_HEX_NEW :=
  (C1_decision_bands 65).2.1 (by decide) (by decide)

/-- C2: over any sequence of ticks whose readings all fall in a manual band
(`t < 70`), starting from tracked state `Manual`, no tick issues the
manual-mode-enable command, every tick issues a speed-set command, and the
tracked state stays `Manual`. -/
theorem C2_manual_mode_idempotent (ticks : List (ℚ × TickEnv))
    (h : ∀ p ∈ ticks, p.1 < TEMP_AUTO_THRESHOLD_NEW) :
    (runTicks RemoteFanState.Manual (ticks.map fun p => (some p.1, p.2))).1
        = RemoteFanState.Manual ∧
    ∀ cmds ∈ (runTicks RemoteFanState.Manual (ticks.map fun p => (some p.1, p.2))).2,
      Cmd.EnableManual ∉ cmds ∧ ∃ speed_hex, Cmd.SetSpeed speed_hex ∈ cmds := by
  induction ticks with
  | nil => exact ⟨rfl, fun cmds hc => absurd hc (List.not_mem_nil cmds)⟩
  | cons p rest ih =>
    obtain ⟨speed_hex, hp⟩ := tick_manual_band p.1 p.2 (h p (List.mem_cons_self p rest))
    obtain ⟨ih1, ih2⟩ := ih (fun q hq => h q (List.mem_cons_of_mem p hq))
    simp only [List.map_cons, runTicks, hp]
    refine ⟨ih1, ?_⟩
    intro cmds hc
    rcases List.mem_cons.mp hc with hceq | hmem
    · subst hceq
      exact ⟨by simp, speed_hex, List.mem_cons_self _ _⟩
    · exact ih2 cmds hmem

/-- Witness for C2 on a two-tick manual-band run (second tick timing out). -/
theorem C2_manual_mode_idempotent_witness :
    (runTicks RemoteFanState.Manual
      ([((55 : ℚ), TickEnv.mk (InvocationResult.exited 0 "") (InvocationResult.exited 0 "")),
        ((65 : ℚ), TickEnv.mk InvocationResult.timeout InvocationResult.timeout)].map
        fun p => (some p.1, p.2))).1 = RemoteFanState.Manual :=
  (C2_manual_mode_idempotent _ (by decide)).1

/-- C3 counterexample: the speed-set command issued from tracked state
`Manual` fails (non-zero exit, non-empty stderr, a `CommandFailure`), yet the
tracked state afterwards is `Manual`, not `Unknown`: the claim "any
CommandFailure forces the tracked state to Unknown" is false for the
speed-set command. -/
theorem C3_speed_failure_keeps_manual_cex :
    classify_outcome false (DELL_SET_FAN_SPEED_PREFIX_CMD_ARGS ++ [FAN_SPEED_MEDIUM_HEX_NEW])
        (InvocationResult.exited 1 "Unable to establish IPMI v2 / RMCP+ session")
      = Outcome.Failure ∧
    set_idrac_fan_speed_percentage FAN_SPEED_MEDIUM_HEX_NEW RemoteFanState.Manual
        (InvocationResult.exited 0 "")
        (InvocationResult.exited 1 "Unable to establish IPMI v2 / RMCP+ session")
      = (false, RemoteFanState.Manual, [Cmd.SetSpeed FAN_SPEED_MEDIUM_HEX_NEW]) ∧
    RemoteFanState.Manual ≠ RemoteFanState.Unknown := by
  decide

/-- C3 amended: a failed mode command (enable-auto, or enable-manual when the
tracked state is not already `Manual`) forces the tracked state to `Unknown`;
a failure of the speed-set command itself leaves the tracked state at
`Manual` (as established by the preceding mode step), not `Unknown`. -/
theorem C3_state_reset_amended (st : RemoteFanState) (r rM rS : InvocationResult)
    (speed_hex : String) (n : ℤ) :
    (run_ipmi_command DELL_ENABLE_AUTO_FAN_CMD_ARGS r = false →
      set_idrac_fan_mode_auto st r = (false, RemoteFanState.Unknown, [Cmd.EnableAuto])) ∧
    (st ≠ RemoteFanState.Manual → run_ipmi_command DELL_DISABLE_AUTO_FAN_CMD_ARGS rM = false →
      ensure_idrac_fan_mode_manual st rM = (false, RemoteFanState.Unknown, [Cmd.EnableManual])) ∧
    (pyIntHex? speed_hex = some n → (ensure_idrac_fan_mode_manual st rM).1 = true →
      run_ipmi_command (DELL_SET_FAN_SPEED_PREFIX_CMD_ARGS ++ [speed_hex]) rS = false →
      (set_idrac_fan_speed_percentage speed_hex st rM rS).1 = false ∧
      (set_idrac_fan_speed_percentage speed_hex st rM rS).2.1 = RemoteFanState.Manual) := by
  refine ⟨fun hr => ?_, fun hst hr => ?_, fun hhex hens hr => ?_⟩
  · unfold set_idrac_fan_mode_auto
    rw [hr]
    rfl
  · unfold ensure_idrac_fan_mode_manual
    rw [if_neg hst, hr]
    rfl
  · have hm := ensure_true_state_manual st rM hens
    unfold set_idrac_fan_speed_percentage
    rw [hhex]
    simp only [hens, hm, hr, if_true]
    exact ⟨rfl, rfl⟩

/-- Witness for C3's amended theorem: a timed-out enable-auto command from
tracked state `Auto` resets the tracked state to `Unknown`. -/
theorem C3_state_reset_amended_witness :
    set_idrac_fan_mode_auto RemoteFanState.Auto InvocationResult.timeout
      = (false, RemoteFanState.Unknown, [Cmd.EnableAuto]) :=
  (C3_state_reset_amended RemoteFanState.Auto InvocationResult.timeout InvocationResult.timeout
    InvocationResult.timeout FAN_SPEED_LOW_HEX_NEW 10).1 (by decide)

/-- C4: the finalization pass acquires one reading; a reading `>= 70` issues
`SetAutoMode` (for every prior tracked state, `Manual` included), a cooler
reading issues no command and leaves everything untouched, and an absent
reading issues `SetAutoMode`. -/
theorem C4_finalization_policy (st : RemoteFanState) (r : InvocationResult) (t : ℚ) :
    (t ≥ TEMP_AUTO_THRESHOLD_NEW → (finalization (some t) st r).2 = [Cmd.EnableAuto]) ∧
    (t < TEMP_AUTO_THRESHOLD_NEW → finalization (some t) st r = (st, [])) ∧
    (finalization none st r).2 = [Cmd.EnableAuto] := by
  have hauto : (set_idrac_fan_mode_auto st r).2.2 = [Cmd.EnableAuto] := by
    unfold set_idrac_fan_mode_auto
    cases hr : run_ipmi_command DELL_ENABLE_AUTO_FAN_CMD_ARGS r <;> rfl
  refine ⟨fun h => ?_, fun h => ?_, ?_⟩
  · simp only [finalization]
    rw [if_pos h]
    exact hauto
  · simp only [finalization]
    rw [if_neg (not_le.mpr h)]
  · simp only [finalization]
    exact hauto

/-- Witness for C4: a hot (75°C) final reading from tracked state `Manual`
issues the enable-auto command. -/
theorem C4_finalization_policy_witness :
    (finalization (some 75) RemoteFanState.Manual (InvocationResult.exited 0 "")).2
      = [Cmd.EnableAuto] :=
  (C4_finalization_policy RemoteFanState.Manual (InvocationResult.exited 0 "") 75).1 (by decide)

/-- C5: a tick with no available reading leaves the tracked state unchanged
and issues no remote command (the Executor is not invoked). -/
theorem C5_absent_reading_frame (st : RemoteFanState) (env : TickEnv) :
    tick none st env = (st, []) := rfl

/-- C6: the Command Executor classifies a zero exit status as Success;
non-zero exit with non-empty stripped diagnostic as Failure; non-zero exit
with empty diagnostic on a raw no-output-expected command as AmbiguousSuccess,
which is treated as success for state-update purposes; and executable-not-found
and timeout as Failure. -/
theorem C6_outcome_classification (eo : Bool) (args : List String) (code : ℕ)
    (stderr : String) (hc : code ≠ 0) :
    classify_outcome eo args (InvocationResult.exited 0 stderr) = Outcome.Success ∧
    (strippedStderr stderr ≠ [] →
      classify_outcome eo args (InvocationResult.exited code stderr) = Outcome.Failure) ∧
    (strippedStderr stderr = [] → (full_cmd args).contains "raw" = true →
      classify_outcome false args (InvocationResult.exited code stderr)
        = Outcome.AmbiguousSuccess) ∧
    (classify_outcome false args (InvocationResult.exited code stderr)
        = Outcome.AmbiguousSuccess →
      run_ipmi_command args (InvocationResult.exited code stderr) = true) ∧
    classify_outcome eo args InvocationResult.timeout = Outcome.Failure ∧
    classify_outcome eo args InvocationResult.notFound = Outcome.Failure := by
  refine ⟨rfl, fun hne => ?_, fun h1 h2 => ?_, fun hamb => ?_, rfl, rfl⟩
  · simp only [classify_outcome]
    rw [if_neg hc, if_neg (fun hcontra => hne hcontra.2.1)]
  · simp only [classify_outcome]
    rw [if_neg hc, if_pos ⟨trivial, h1, h2⟩]
  · unfold run_ipmi_command
    rw [hamb]

/-- Witness for C6: a non-zero-exit, empty-stderr enable-auto (raw) command is
AmbiguousSuccess. -/
theorem C6_outcome_classification_witness :
    classify_outcome false DELL_ENABLE_AUTO_FAN_CMD_ARGS (InvocationResult.exited 1 "")
      = Outcome.AmbiguousSuccess :=
  (C6_outcome_classification false DELL_ENABLE_AUTO_FAN_CMD_ARGS 1 "" (by decide)).2.2.1
    (by decide) (by decide)

/-- C7: a set-speed request from a tracked state other than `Manual` issues
the manual-mode-enable command first, issues the speed command if and only if
that mode transition succeeded, and reports overall failure when the mode
transition fails. -/
theorem C7_speed_requires_manual_first (st : RemoteFanState)
    (hst : st ≠ RemoteFanState.Manual) (speed_hex : String) (n : ℤ)
    (hhex : pyIntHex? speed_hex = some n) (rM rS : InvocationResult) :
    ((set_idrac_fan_speed_percentage speed_hex st rM rS).2.2).head?
        = some Cmd.EnableManual ∧
    (run_ipmi_command DELL_DISABLE_AUTO_FAN_CMD_ARGS rM = true →
      (set_idrac_fan_speed_percentage speed_hex st rM rS).2.2
        = [Cmd.EnableManual, Cmd.SetSpeed speed_hex]) ∧
    (run_ipmi_command DELL_DISABLE_AUTO_FAN_CMD_ARGS rM = false →
      (set_idrac_fan_speed_percentage speed_hex st rM rS).2.2 = [Cmd.EnableManual] ∧
      (set_idrac_fan_speed_percentage speed_hex st rM rS).1 = false) := by
  unfold set_idrac_fan_speed_percentage ensure_idrac_fan_mode_manual
  rw [hhex, if_neg hst]
  cases hm : run_ipmi_command DELL_DISABLE_AUTO_FAN_CMD_ARGS rM
  · exact ⟨rfl, fun hcontra => absurd hcontra (by decide), fun _ => ⟨rfl, rfl⟩⟩
  · cases hs : run_ipmi_command (DELL_SET_FAN_SPEED_PREFIX_CMD_ARGS ++ [speed_hex]) rS
    · exact ⟨rfl, fun _ => rfl, fun hcontra => absurd hcontra (by decide)⟩
    · exact ⟨rfl, fun _ => rfl, fun hcontra => absurd hcontra (by decide)⟩

/-- Witness for C7: from tracked state `Auto` with a succeeding mode command,
the commands issued are enable-manual followed by the speed command. -/
theorem C7_speed_requires_manual_first_witness :
    (set_idrac_fan_speed_percentage FAN_SPEED_MEDIUM_HEX_NEW RemoteFanState.Auto
      (InvocationResult.exited 0 "") (InvocationResult.exited 0 "")).2.2
      = [Cmd.EnableManual, Cmd.SetSpeed FAN_SPEED_MEDIUM_HEX_NEW] :=
  (C7_speed_requires_manual_first RemoteFanState.Auto (by decide) FAN_SPEED_MEDIUM_HEX_NEW 50
    (by decide) (InvocationResult.exited 0 "") (InvocationResult.exited 0 "")).2.1 (by decide)

/-- C8 counterexample: on a snapshot whose single Temperatures group holds two
"CPU Package" leaves (50.0 then 80.0), the extractor returns 50 — the first
successfully parsed leaf of the group — while the claimed maximum over every
such leaf is 80. -/
theorem C8_first_leaf_only_cex :
    get_cpu_package_temp_from_ohm cexData = some 50 ∧
    spec_cpu_package_max cexData = some 80 ∧
    get_cpu_package_temp_from_ohm cexData ≠ spec_cpu_package_max cexData := by
  decide

/-- C8 amended: the extractor returns the maximum over the first successfully
parsed "CPU Package" leaf of each Temperatures group of each CPU-class node;
whenever no Temperatures group contains more than one leaf named
"CPU Package", this coincides with the claimed maximum over every such leaf
(parse failures skipped, no value or malformed top-level shape giving no
reading, as `spec_cpu_package_max` prescribes). -/
theorem C8_extractor_amended (data : OhmNode)
    (H : ∀ computer ∈ data.children, ∀ hw ∈ computer.children, ∀ comp ∈ hw.children,
      (comp.children.filter (fun s => s.text = "CPU Package")).length ≤ 1) :
    get_cpu_package_temp_from_ohm data = spec_cpu_package_max data := by
  obtain ⟨t, u, v, children⟩ := data
  cases children with
  | nil => rfl
  | cons computer rest =>
    obtain ⟨t2, u2, v2, cc⟩ := computer
    cases cc with
    | nil => rfl
    | cons hw hwrest =>
      have hmem : ∀ x ∈ hw :: hwrest,
          specPackageTempsOfHardware x = packageTempsOfHardware x := by
        intro x hx
        refine hardware_first_eq_spec x
          (fun comp hcomp =>
            H (OhmNode.node t2 u2 v2 (hw :: hwrest)) ?_ x ?_ comp hcomp)
        · exact List.mem_cons_self _ _
        · exact hx
      show (match (hw :: hwrest).flatMap packageTempsOfHardware with
            | [] => none
            | q :: qs => some (pyMax q qs))
          = (match (hw :: hwrest).flatMap specPackageTempsOfHardware with
            | [] => none
            | q :: qs => some (pyMax q qs))
      rw [flatMap_congr_mem specPackageTempsOfHardware packageTempsOfHardware
        (hw :: hwrest) hmem]

/-- Witness for C8's amended theorem on a well-shaped snapshot (one package
leaf per group, an unparseable sibling sensor, a non-CPU node). -/
theorem C8_extractor_amended_witness :
    get_cpu_package_temp_from_ohm okData = spec_cpu_package_max okData ∧
    get_cpu_package_temp_from_ohm okData = some 65 :=
  ⟨C8_extractor_amended okData (by decide), by decide⟩

/-- C9: from tracked state `Unknown`, the reading sequence [50, 65, 72, 68]
with every command succeeding produces the decisions [low, medium, auto,
medium] and the per-tick command lists show the manual-mode-enable command
issued exactly twice: on the first tick and on the tick after `SetAutoMode`. -/
theorem C9_end_to_end_scenario :
    [(50 : ℚ), 65, 72, 68].map loopDecision
      = [FanAction.SetManualSpeed FAN_SPEED_LOW_HEX_NEW,
         FanAction.SetManualSpeed FAN_SPEED_MEDIUM_HEX_NEW,
         FanAction.SetAutoMode,
         FanAction.SetManualSpeed FAN_SPEED_MEDIUM_HEX_NEW] ∧
    runTicks RemoteFanState.Unknown
        ([(50 : ℚ), 65, 72, 68].map fun t =>
          (some t, TickEnv.mk (InvocationResult.exited 0 "") (InvocationResult.exited 0 "")))
      = (RemoteFanState.Manual,
         [[Cmd.EnableManual, Cmd.SetSpeed FAN_SPEED_LOW_HEX_NEW],
          [Cmd.SetSpeed FAN_SPEED_MEDIUM_HEX_NEW],
          [Cmd.EnableAuto],
          [Cmd.EnableManual, Cmd.SetSpeed FAN_SPEED_MEDIUM_HEX_NEW]]) ∧
    List.count Cmd.EnableManual
        (List.flatten (runTicks RemoteFanState.Unknown
          ([(50 : ℚ), 65, 72, 68].map fun t =>
            (some t, TickEnv.mk (InvocationResult.exited 0 "") (InvocationResult.exited 0 "")))).2)
      = 2 := by
  decide

/-- C10: a speed argument that is not a valid hexadecimal integer literal
makes `set_idrac_fan_speed_percentage` return failure before issuing any
remote command, leaving the tracked state unchanged. -/
theorem C10_invalid_hex_rejected (speed_hex : String) (h : pyIntHex? speed_hex = none)
    (st : RemoteFanState) (rM rS : InvocationResult) :
    set_idrac_fan_speed_percentage speed_hex st rM rS = (false, st, []) := by
  unfold set_idrac_fan_speed_percentage
  rw [h]

/-- Witness for C10 at the invalid hex string "GG". -/
theorem C10_invalid_hex_rejected_witness :
    pyIntHex? "GG" = none ∧
    set_idrac_fan_speed_percentage "GG" RemoteFanState.Manual InvocationResult.timeout
      InvocationResult.timeout = (false, RemoteFanState.Manual, []) :=
  ⟨by decide, C10_invalid_hex_rejected "GG" (by decide) RemoteFanState.Manual
    InvocationResult.timeout InvocationResult.timeout⟩

end Fan
